import Mathlib

/-!
Shallow embedding of the task-handoff-agent repository.

Sources embedded:
  * `src/lib/models/task-state.ts` — the Zod data model (`TaskStateSchema` and
    its sub-schemas) becomes the Lean structures below.  The format
    refinements (`.uuid()`, `.datetime()` on string fields and the untyped
    `z.record(z.unknown())` input of a tool call) are not modelled; the
    enumeration and numeric-range refinements, which the claims depend on,
    are modelled in `validTaskState`.
  * `src/lib/github/state-store.ts` — `TaskStateStore`.  Each method reads
    one task document, transforms it and persists the whole document, so it
    is embedded as a pure function on the document.  Nondeterministic inputs
    of the original (`new Date().toISOString()`, `uuidv4()`) become explicit
    `now` / generated-id parameters.  A method that can throw becomes an
    `Except` value; a throw carries no persisted document, matching the code
    where `TaskStateSchema.parse` runs before `saveTaskState`.
  * `src/lib/agent/task-executor.ts` — `TaskExecutor.execute` / `resume` and
    the authorization prefix of `continueTask`.  The opaque `generateText`
    agent-turn invocation is a parameter of type `Except String String`
    (error message, or produced text).

JavaScript `number` fields are embedded as `Int` (only order comparisons
matter to the claims), JS arrays as `List`, optional fields as `Option`.
-/

namespace TaskHandoff

/-- Embeds `FileModificationSchema` of task-state.ts. -/
structure FileModification where
  path : String
  action : String
  previousHash : Option String
  currentHash : String
  summary : String
deriving DecidableEq

/-- A tool call attached to a conversation message; the untyped
`input: z.record(z.unknown())` field is not modelled. -/
structure ToolCall where
  name : String
  result : Option String
deriving DecidableEq

/-- Embeds `ConversationMessageSchema` of task-state.ts. -/
structure ConversationMessage where
  role : String
  content : String
  timestamp : String
  toolCalls : Option (List ToolCall)
deriving DecidableEq

/-- Embeds `ProgressCheckpointSchema` of task-state.ts. -/
structure ProgressCheckpoint where
  id : String
  timestamp : String
  description : String
  completedSteps : List String
  remainingSteps : List String
  blockers : Option (List String)
deriving DecidableEq

/-- Embeds `AgentIdentitySchema` of task-state.ts. -/
structure AgentIdentity where
  userId : String
  agentId : String
  sessionId : String
  startedAt : String
  endedAt : Option String
deriving DecidableEq

/-- Embeds `HandoffRecordSchema` of task-state.ts; `toAgent` is optional. -/
structure HandoffRecord where
  fromAgent : AgentIdentity
  toAgent : Option AgentIdentity
  handoffAt : String
  reason : String
  instructions : String
deriving DecidableEq

/-- Embeds `ResourceSchema` of task-state.ts. -/
structure Resource where
  type : String
  path : String
  description : String
deriving DecidableEq

/-- The `github` sub-object of `TaskStateSchema`. -/
structure GithubInfo where
  repo : String
  branch : String
  stateRepo : String
  issueNumber : Option Int
  prNumber : Option Int
  commitSha : Option String
deriving DecidableEq

/-- The `session` sub-object of `TaskStateSchema`. -/
structure SessionInfo where
  currentSessionId : String
  transcriptPath : String
  lastMessageUuid : Option String
deriving DecidableEq

/-- The `context` sub-object of `TaskStateSchema`. -/
structure TaskContext where
  systemPrompt : Option String
  conversationHistory : List ConversationMessage
  compactedSummary : Option String
deriving DecidableEq

/-- The `progress` sub-object of `TaskStateSchema`. -/
structure Progress where
  currentPhase : String
  checkpoints : List ProgressCheckpoint
  percentComplete : Int
deriving DecidableEq

/-- The `files` sub-object of `TaskStateSchema`. -/
structure TaskFiles where
  modifications : List FileModification
  workingDirectory : String
deriving DecidableEq

/-- The `nextSteps` sub-object of `TaskStateSchema`. -/
structure NextSteps where
  immediate : List String
  considerations : List String
  blockers : List String
  resources : List Resource
deriving DecidableEq

/-- The `security` sub-object of `TaskStateSchema`. -/
structure Security where
  encryptedSecrets : Option String
  allowedAgents : List String
  requireApproval : Bool
deriving DecidableEq

/-- Embeds `TaskStateSchema` of task-state.ts: the whole task document. -/
structure TaskState where
  id : String
  version : Nat
  title : String
  description : String
  createdAt : String
  updatedAt : String
  status : String
  github : GithubInfo
  session : SessionInfo
  context : TaskContext
  progress : Progress
  files : TaskFiles
  handoffs : List HandoffRecord
  nextSteps : NextSteps
  security : Security
deriving DecidableEq

/-- The `status` enum of `TaskStateSchema`. -/
def statusValues : List String :=
  ["pending", "in_progress", "awaiting_handoff", "handed_off",
   "completed", "failed", "cancelled"]

/-- The `role` enum of `ConversationMessageSchema`. -/
def roleValues : List String := ["user", "assistant", "system"]

/-- The `action` enum of `FileModificationSchema`. -/
def actionValues : List String := ["created", "modified", "deleted"]

/-- The behaviourally relevant refinements of `TaskStateSchema.parse`:
`version: z.number().int().min(1)`, the `status` enum,
`percentComplete: z.number().min(0).max(100)`, the `role` enum of each
conversation message and the `action` enum of each file modification.
String-format refinements (`uuid`, `datetime`) are not modelled. -/
def validTaskState (t : TaskState) : Bool :=
  1 ≤ t.version &&
  statusValues.contains t.status &&
  (0 ≤ t.progress.percentComplete && t.progress.percentComplete ≤ 100) &&
  t.context.conversationHistory.all (fun m => roleValues.contains m.role) &&
  t.files.modifications.all (fun f => actionValues.contains f.action)

/-- The error outcomes of the embedded store / executor methods. -/
inductive StoreError where
  | validation
  | noHandoffRecord
  | unauthorized
deriving DecidableEq

/-- Constant `BASE_PATH` of state-store.ts. -/
def BASE_PATH : String := ".task-handoff"

/-- Parameters of `TaskStateStore.createTask`. -/
structure CreateTaskParams where
  id : Option String
  title : String
  description : String
  githubRepo : String
  githubBranch : String
  githubStateRepo : Option String
  agentId : String
  userId : String
deriving DecidableEq

/-- JS `a || b` for an optional string: an absent or empty string falls
back to the default. -/
def orElseStr (s : Option String) (dflt : String) : String :=
  match s with
  | none => dflt
  | some v => if v = "" then dflt else v

/-- The task document built by `TaskStateStore.createTask` before
validation and persistence.  `storeRepo` is the store's `owner/repo`
string, `now` the ISO timestamp, `generatedId` the `uuidv4()` value used
when `params.id` is absent. -/
def createTaskDoc (params : CreateTaskParams) (storeRepo now generatedId : String) :
    TaskState :=
  let taskId := orElseStr params.id generatedId
  { id := taskId
    version := 1
    title := params.title
    description := params.description
    createdAt := now
    updatedAt := now
    status := "pending"
    github :=
      { repo := params.githubRepo
        branch := params.githubBranch
        stateRepo := orElseStr params.githubStateRepo storeRepo
        issueNumber := none
        prNumber := none
        commitSha := none }
    session :=
      { currentSessionId := ""
        transcriptPath := BASE_PATH ++ "/tasks/" ++ taskId ++ "/transcript.json"
        lastMessageUuid := none }
    context :=
      { systemPrompt := none
        conversationHistory := []
        compactedSummary := none }
    progress :=
      { currentPhase := "initialization"
        checkpoints := []
        percentComplete := 0 }
    files :=
      { modifications := []
        workingDirectory := "." }
    handoffs :=
      [{ fromAgent :=
           { userId := params.userId
             agentId := params.agentId
             sessionId := ""
             startedAt := now
             endedAt := none }
         toAgent := none
         handoffAt := now
         reason := "Task created"
         instructions := "Initial task creation" }]
    nextSteps :=
      { immediate := ["Analyze task requirements", "Plan implementation approach"]
        considerations := []
        blockers := []
        resources := [] }
    security :=
      { encryptedSecrets := none
        allowedAgents := ["*"]
        requireApproval := false } }

/-- Embeds `TaskStateStore.createTask`: build the document, validate it with
`TaskStateSchema.parse` (a throw becomes `.error .validation`), persist. -/
def createTask (params : CreateTaskParams) (storeRepo now generatedId : String) :
    Except StoreError TaskState :=
  let doc := createTaskDoc params storeRepo now generatedId
  if validTaskState doc then .ok doc else .error .validation

/-- Embeds `Partial<TaskState>`: the `updates` argument of
`TaskStateStore.updateTask`. -/
structure TaskPatch where
  id : Option String := none
  version : Option Nat := none
  title : Option String := none
  description : Option String := none
  createdAt : Option String := none
  updatedAt : Option String := none
  status : Option String := none
  github : Option GithubInfo := none
  session : Option SessionInfo := none
  context : Option TaskContext := none
  progress : Option Progress := none
  files : Option TaskFiles := none
  handoffs : Option (List HandoffRecord) := none
  nextSteps : Option NextSteps := none
  security : Option Security := none
deriving DecidableEq

/-- The spread `{ ...current, ...updates, version: current.version + 1,
updatedAt: <now> }` of `updateTask`: patch fields override, then `version`
and `updatedAt` are forced (they are written after the spread, so a
`version` or `updatedAt` entry in the patch never survives). -/
def applyTaskPatch (task : TaskState) (patch : TaskPatch) (now : String) : TaskState :=
  { id := patch.id.getD task.id
    version := task.version + 1
    title := patch.title.getD task.title
    description := patch.description.getD task.description
    createdAt := patch.createdAt.getD task.createdAt
    updatedAt := now
    status := patch.status.getD task.status
    github := patch.github.getD task.github
    session := patch.session.getD task.session
    context := patch.context.getD task.context
    progress := patch.progress.getD task.progress
    files := patch.files.getD task.files
    handoffs := patch.handoffs.getD task.handoffs
    nextSteps := patch.nextSteps.getD task.nextSteps
    security := patch.security.getD task.security }

/-- Embeds `TaskStateStore.updateTask` on the current document: merge the patch,
bump `version`, refresh `updatedAt`, validate before saving. -/
def updateTask (task : TaskState) (patch : TaskPatch) (now : String) :
    Except StoreError TaskState :=
  let updated := applyTaskPatch task patch now
  if validTaskState updated then .ok updated else .error .validation

/-- Embeds `TaskStateStore.updateSessionId`: set `session.currentSessionId`, set
`status` to `in_progress`, copy the session id into the last handoff's
`fromAgent`, persist.  The method makes no `new Date()` call: `updatedAt`
is left as it was. -/
def updateSessionId (task : TaskState) (sessionId : String) : TaskState :=
  let t1 : TaskState :=
    { task with
      session := { task.session with currentSessionId := sessionId }
      status := "in_progress" }
  match t1.handoffs.getLast? with
  | none => t1
  | some last =>
      { t1 with
        handoffs := t1.handoffs.dropLast ++
          [{ last with fromAgent := { last.fromAgent with sessionId := sessionId } }] }

/-- Embeds `TaskStateStore.addFileModification`. -/
def addFileModification (task : TaskState) (modification : FileModification)
    (now : String) : TaskState :=
  { task with
    files := { task.files with modifications := task.files.modifications ++ [modification] }
    updatedAt := now }

/-- The per-message digest line of `compactHistory`:
`[${m.role}]: ${m.content.substring(0, 100)}...`. -/
def summaryLine (m : ConversationMessage) : String :=
  "[" ++ m.role ++ "]: " ++ m.content.take 100 ++ "..."

/-- Embeds `TaskStateStore.compactHistory`: keep the last 20 messages
(`slice(-20)`), fold the rest (`slice(0, -20)`) into `compactedSummary`
behind a `"\n\n---\n"` delimiter. -/
def compactHistory (task : TaskState) : TaskState :=
  let hist := task.context.conversationHistory
  let cut := hist.length - 20
  let toCompact := hist.take cut
  let toKeep := hist.drop cut
  let summary := String.intercalate "\n" (toCompact.map summaryLine)
  { task with
    context :=
      { task.context with
        compactedSummary :=
          some ((task.context.compactedSummary.getD "") ++ "\n\n---\n" ++ summary)
        conversationHistory := toKeep } }

/-- Embeds `TaskStateStore.addConversationMessage`: push the message, compact when
the history exceeds 50 entries, refresh `updatedAt`, persist. -/
def addConversationMessage (task : TaskState) (message : ConversationMessage)
    (now : String) : TaskState :=
  let t1 : TaskState :=
    { task with
      context :=
        { task.context with
          conversationHistory := task.context.conversationHistory ++ [message] } }
  let t2 := if t1.context.conversationHistory.length > 50 then compactHistory t1 else t1
  { t2 with updatedAt := now }

/-- Embeds `Partial<TaskState["progress"]>`. -/
structure ProgressPatch where
  currentPhase : Option String := none
  checkpoints : Option (List ProgressCheckpoint) := none
  percentComplete : Option Int := none
deriving DecidableEq

/-- Embeds `TaskStateStore.updateProgress`: merge the patch into `progress`
(`{ ...task.progress, ...progress }`), refresh `updatedAt`, persist.
No schema validation runs on this path. -/
def updateProgress (task : TaskState) (patch : ProgressPatch) (now : String) :
    TaskState :=
  { task with
    progress :=
      { currentPhase := patch.currentPhase.getD task.progress.currentPhase
        checkpoints := patch.checkpoints.getD task.progress.checkpoints
        percentComplete := patch.percentComplete.getD task.progress.percentComplete }
    updatedAt := now }

/-- Embeds `Partial<TaskState["nextSteps"]>`. -/
structure NextStepsPatch where
  immediate : Option (List String) := none
  considerations : Option (List String) := none
  blockers : Option (List String) := none
  resources : Option (List Resource) := none
deriving DecidableEq

/-- Embeds `TaskStateStore.updateNextSteps`: merge the patch into `nextSteps`,
refresh `updatedAt`, persist. -/
def updateNextSteps (task : TaskState) (patch : NextStepsPatch) (now : String) :
    TaskState :=
  { task with
    nextSteps :=
      { immediate := patch.immediate.getD task.nextSteps.immediate
        considerations := patch.considerations.getD task.nextSteps.considerations
        blockers := patch.blockers.getD task.nextSteps.blockers
        resources := patch.resources.getD task.nextSteps.resources }
    updatedAt := now }

/-- Embeds `Omit<HandoffRecord, "toAgent">`: the argument of `initiateHandoff`. -/
structure HandoffInit where
  fromAgent : AgentIdentity
  handoffAt : String
  reason : String
  instructions : String
deriving DecidableEq

/-- Embeds `TaskStateStore.initiateHandoff`: set `status` to `awaiting_handoff`,
push the handoff record (its `toAgent` absent), refresh `updatedAt`,
persist. -/
def initiateHandoff (task : TaskState) (h : HandoffInit) (now : String) : TaskState :=
  { task with
    status := "awaiting_handoff"
    handoffs := task.handoffs ++
      [{ fromAgent := h.fromAgent
         toAgent := none
         handoffAt := h.handoffAt
         reason := h.reason
         instructions := h.instructions }]
    updatedAt := now }

/-- Embeds `TaskStateStore.acceptHandoff`: fail when `handoffs` is empty
(`throw new Error("No handoff record found")`); otherwise set `toAgent` on
the last handoff record to the accepting identity with the current
timestamp, set `status` to `handed_off`, refresh `updatedAt`, persist. -/
def acceptHandoff (task : TaskState) (agentId userId now : String) :
    Except StoreError TaskState :=
  match task.handoffs.getLast? with
  | none => .error .noHandoffRecord
  | some last =>
      .ok
        { task with
          handoffs := task.handoffs.dropLast ++
            [{ last with
               toAgent :=
                 some { userId := userId, agentId := agentId, sessionId := ""
                        startedAt := now, endedAt := none } }]
          status := "handed_off"
          updatedAt := now }

/-- The update object `completeTask` passes to `updateTask`. -/
def completionPatch : TaskPatch :=
  { status := some "completed"
    progress := some { currentPhase := "completed", checkpoints := [], percentComplete := 100 } }

/-- Embeds `TaskStateStore.completeTask`: delegates to `updateTask` with status
`completed` and a reset, fully complete progress object. -/
def completeTask (task : TaskState) (now : String) : Except StoreError TaskState :=
  updateTask task completionPatch now

/-- One record of `index.json`, as the JSON object it is at runtime:
an association list from field name to string value. -/
def indexEntry (taskId title now : String) : List (String × String) :=
  [("id", taskId), ("title", title), ("createdAt", now)]

/-- The `index.json` document: `{ tasks: [...] }`. -/
structure TaskIndex where
  tasks : List (List (String × String))
deriving DecidableEq

/-- Embeds `TaskStateStore.addToIndex`: read the index (a missing document is the
empty index), push `{ id, title, createdAt }`, write back. -/
def addToIndex (index : Option TaskIndex) (taskId title now : String) : TaskIndex :=
  { tasks := (index.getD { tasks := [] }).tasks ++ [indexEntry taskId title now] }

/-- Embeds `TaskStateStore.listTasks`: return the `tasks` list of the index
document; a missing index (HTTP 404) yields the empty list, not an
error. -/
def listTasks (index : Option TaskIndex) : List (List (String × String)) :=
  match index with
  | none => []
  | some i => i.tasks

/-- Embeds `ExecutionResult` of task-executor.ts. -/
structure ExecutionResult where
  sessionId : String
  status : String
  progress : Int
  result : Option String
  error : Option String
deriving DecidableEq

/-- The `updateTask` patch `{ status: "in_progress" }` used inside the
executor's try block. -/
def inProgressPatch : TaskPatch := { status := some "in_progress" }

/-- The `updateTask` patch `{ status: "failed" }` used inside
`execute`'s catch block. -/
def failedPatch : TaskPatch := { status := some "failed" }

/-- The assistant message the executor appends after a successful turn. -/
def assistantMessage (text now : String) : ConversationMessage :=
  { role := "assistant", content := text, timestamp := now, toolCalls := none }

/-- A `StoreError` escaping the executor's try block, rendered as the
message its catch clause captures (`error instanceof Error ?
error.message : "Unknown error"`; a Zod parse failure is an `Error`). -/
def storeErrorMessage (e : StoreError) : String :=
  match e with
  | .validation => "Validation failed"
  | .noHandoffRecord => "No handoff record found"
  | .unauthorized => "Not authorized to continue this task"

/-- Embeds `TaskExecutor.execute` on the task document it read.  `newSessionId`
is the `uuidv4()` session id, `turn` the outcome of the opaque
`generateText` invocation.  The method first persists the session id via
`updateSessionId`, then runs the try block (turn, `updateTask` to
`in_progress`, append the assistant message); its catch block persists
status `failed` and returns a failure result carrying the error message.
A `.error` result models an exception escaping `execute` itself, which
can only come from the catch block's own `updateTask`.  The result's
`progress` field is read from the task as it was first loaded. -/
def execute (task : TaskState) (newSessionId : String)
    (turn : Except String String) (now : String) :
    Except String (TaskState × ExecutionResult) :=
  let t1 := updateSessionId task newSessionId
  let attempt : Except String (TaskState × ExecutionResult) :=
    match turn with
    | .error e => .error e
    | .ok text =>
        match updateTask t1 inProgressPatch now with
        | .error ve => .error (storeErrorMessage ve)
        | .ok t2 =>
            .ok (addConversationMessage t2 (assistantMessage text now) now,
              { sessionId := newSessionId
                status := "in_progress"
                progress := task.progress.percentComplete
                result := some text
                error := none })
  match attempt with
  | .ok r => .ok r
  | .error e =>
      match updateTask t1 failedPatch now with
      | .error ve => .error (storeErrorMessage ve)
      | .ok t2 =>
          .ok (t2,
            { sessionId := newSessionId
              status := "failed"
              progress := task.progress.percentComplete
              result := none
              error := some e })

/-- Embeds `TaskExecutor.resume` on the task document it read.  No
`updateSessionId` call is made; the try block runs the turn, `updateTask`
to `in_progress` and appends the assistant message.  Its catch block
performs no store call at all: it returns the failure result and leaves
the persisted document exactly as it was. -/
def resume (task : TaskState) (sessionId : String)
    (turn : Except String String) (now : String) :
    TaskState × ExecutionResult :=
  let attempt : Except String (TaskState × ExecutionResult) :=
    match turn with
    | .error e => .error e
    | .ok text =>
        match updateTask task inProgressPatch now with
        | .error ve => .error (storeErrorMessage ve)
        | .ok t2 =>
            .ok (addConversationMessage t2 (assistantMessage text now) now,
              { sessionId := sessionId
                status := "in_progress"
                progress := task.progress.percentComplete
                result := some text
                error := none })
  match attempt with
  | .ok r => r
  | .error e =>
      (task,
        { sessionId := sessionId
          status := "failed"
          progress := task.progress.percentComplete
          result := none
          error := some e })

/-- The authorization test of `continueTask` (agent/index module):
a caller passes when `allowedAgents` contains the wildcard `"*"` or the
caller's `agentId`. -/
def isAuthorized (task : TaskState) (agentId : String) : Bool :=
  task.security.allowedAgents.contains "*" || task.security.allowedAgents.contains agentId

/-- The authorization-and-acceptance prefix of `continueTask`: after
loading the task it throws `"Not authorized to continue this task"` when
neither the wildcard nor the caller's id is in `allowedAgents` — before
any store mutation, so an unauthorized call changes no state — and
otherwise accepts the pending handoff when asked to and the task is
`awaiting_handoff`.  The subsequent `resume` call does not touch the
authorization decision. -/
def continueTaskAuth (task : TaskState) (agentId userId now : String)
    (acceptFlag : Bool) : Except StoreError TaskState :=
  if !task.security.allowedAgents.contains "*" &&
     !task.security.allowedAgents.contains agentId then
    .error .unauthorized
  else if acceptFlag && task.status = "awaiting_handoff" then
    acceptHandoff task agentId userId now
  else
    .ok task

/-! ## Concrete fixtures used by witnesses and counterexamples -/

/-- Concrete creation parameters. -/
def cParams : CreateTaskParams :=
  { id := some "task-1"
    title := "Demo task"
    description := "A demo"
    githubRepo := "octo/work"
    githubBranch := "main"
    githubStateRepo := none
    agentId := "agent-1"
    userId := "user-1" }

/-- Concrete creation timestamp. -/
def cNow : String := "2024-01-01T00:00:00.000Z"

/-- Concrete later timestamp for mutations. -/
def cNow2 : String := "2024-01-02T00:00:00.000Z"

/-- The concrete freshly created task document. -/
def cTask0 : TaskState := createTaskDoc cParams "octo/state" cNow "gen-uuid-1"

/-- A concrete conversation message. -/
def cMsg : ConversationMessage :=
  { role := "user", content := "hello", timestamp := cNow, toolCalls := none }

/-- The concrete task with a conversation history of exactly 50 messages. -/
def cTask50 : TaskState :=
  { cTask0 with
    context := { cTask0.context with conversationHistory := List.replicate 50 cMsg } }

/-- The concrete task mid-run: status `in_progress`. -/
def cTaskIP : TaskState := { cTask0 with status := "in_progress" }

/-- The concrete task whose allow-list names only `alice`. -/
def cTaskRestricted : TaskState :=
  { cTask0 with
    security := { cTask0.security with allowedAgents := ["alice"] } }

/-- A concrete file modification record. -/
def cMod : FileModification :=
  { path := "src/a.ts", action := "modified", previousHash := none
    currentHash := "h1", summary := "edit" }

/-- A concrete handoff-initiation record. -/
def cHI : HandoffInit :=
  { fromAgent :=
      { userId := "user-1", agentId := "agent-1", sessionId := "sess-1"
        startedAt := cNow, endedAt := none }
    handoffAt := cNow2
    reason := "time_limit"
    instructions := "continue" }

/-- The initial handoff record of `cTask0`. -/
def cHandoff0 : HandoffRecord :=
  { fromAgent :=
      { userId := "user-1", agentId := "agent-1", sessionId := ""
        startedAt := cNow, endedAt := none }
    toAgent := none
    handoffAt := cNow
    reason := "Task created"
    instructions := "Initial task creation" }

/-! ## Theorems -/

/-- C5: for every input on which `createTask` returns, the returned task
has a handoffs list holding exactly one synthesized record with reason
"Task created", status `pending`, version 1 and `percentComplete` 0. -/
theorem createTask_initial_state (params : CreateTaskParams)
    (storeRepo now generatedId : String) (t : TaskState)
    (h : createTask params storeRepo now generatedId = Except.ok t) :
    t.handoffs.map HandoffRecord.reason = ["Task created"] ∧
    t.status = "pending" ∧ t.version = 1 ∧ t.progress.percentComplete = 0 := by
  replace h :
      (if validTaskState (createTaskDoc params storeRepo now generatedId) = true then
        Except.ok (createTaskDoc params storeRepo now generatedId)
      else Except.error StoreError.validation) = Except.ok t := h
  split at h
  · injection h with h
    subst h
    exact ⟨rfl, rfl, rfl, rfl⟩
  · exact Except.noConfusion h

/-- Witness for C5 at the concrete creation parameters. -/
theorem createTask_initial_state_witness :
    createTask cParams "octo/state" cNow "gen-uuid-1" = Except.ok cTask0 ∧
    (cTask0.handoffs.map HandoffRecord.reason = ["Task created"] ∧
     cTask0.status = "pending" ∧ cTask0.version = 1 ∧
     cTask0.progress.percentComplete = 0) :=
  ⟨rfl, createTask_initial_state cParams "octo/state" cNow "gen-uuid-1" cTask0 rfl⟩

/-- C10: every task produced by `createTask` has
`security.allowedAgents = ["*"]` and `requireApproval = false`, so every
agent identity passes the `continueTask` authorization check. -/
theorem createTask_default_security (params : CreateTaskParams)
    (storeRepo now generatedId : String) (t : TaskState)
    (h : createTask params storeRepo now generatedId = Except.ok t) :
    t.security.allowedAgents = ["*"] ∧
    t.security.requireApproval = false ∧
    ∀ agentId : String, isAuthorized t agentId = true := by
  replace h :
      (if validTaskState (createTaskDoc params storeRepo now generatedId) = true then
        Except.ok (createTaskDoc params storeRepo now generatedId)
      else Except.error StoreError.validation) = Except.ok t := h
  split at h
  · injection h with h
    subst h
    exact ⟨rfl, rfl, fun _ => rfl⟩
  · exact Except.noConfusion h

/-- Witness for C10 at the concrete creation parameters. -/
theorem createTask_default_security_witness :
    createTask cParams "octo/state" cNow "gen-uuid-1" = Except.ok cTask0 ∧
    (cTask0.security.allowedAgents = ["*"] ∧
     cTask0.security.requireApproval = false ∧
     ∀ agentId : String, isAuthorized cTask0 agentId = true) :=
  ⟨rfl, createTask_default_security cParams "octo/state" cNow "gen-uuid-1" cTask0 rfl⟩

/-- C3: `acceptHandoff` fails with the no-handoff-record error when the
handoffs list is empty; otherwise it sets `toAgent` (accepting identity
and timestamp) on the last handoff record only, leaves every earlier
record unchanged, and sets the status to exactly `handed_off`. -/
theorem acceptHandoff_spec (task : TaskState) (agentId userId now : String) :
    (task.handoffs = [] →
      acceptHandoff task agentId userId now = Except.error StoreError.noHandoffRecord) ∧
    (∀ (hs : List HandoffRecord) (h : HandoffRecord), task.handoffs = hs ++ [h] →
      acceptHandoff task agentId userId now =
        Except.ok
          { task with
            handoffs := hs ++
              [{ h with
                 toAgent :=
                   some { userId := userId, agentId := agentId, sessionId := ""
                          startedAt := now, endedAt := none } }]
            status := "handed_off"
            updatedAt := now }) := by
  constructor
  · intro he
    unfold acceptHandoff
    rw [he]
    rfl
  · intro hs h he
    unfold acceptHandoff
    rw [he, List.getLast?_concat]
    rw [List.dropLast_concat]

/-- Witness for C3: accepting the pending handoff of the freshly created
task updates its single record and status. -/
theorem acceptHandoff_spec_witness :
    cTask0.handoffs = [] ++ [cHandoff0] ∧
    acceptHandoff cTask0 "agent-2" "user-2" cNow2 =
      Except.ok
        { cTask0 with
          handoffs := [] ++
            [{ cHandoff0 with
               toAgent :=
                 some { userId := "user-2", agentId := "agent-2", sessionId := ""
                        startedAt := cNow2, endedAt := none } }]
          status := "handed_off"
          updatedAt := cNow2 } :=
  ⟨by decide, (acceptHandoff_spec cTask0 "agent-2" "user-2" cNow2).2 [] cHandoff0 (by decide)⟩

/-- C7: a caller is authorized on a task exactly when its agent id is an
element of `security.allowedAgents` or that list contains the wildcard
`"*"`; an identity satisfying neither is rejected with the unauthorized
error (before any state mutation), and an authorized identity is never
rejected with it. -/
theorem continueTask_authorization (task : TaskState)
    (agentId userId now : String) (acceptFlag : Bool) :
    (isAuthorized task agentId = true ↔
      (agentId ∈ task.security.allowedAgents ∨ "*" ∈ task.security.allowedAgents)) ∧
    (¬ (agentId ∈ task.security.allowedAgents ∨ "*" ∈ task.security.allowedAgents) →
      continueTaskAuth task agentId userId now acceptFlag =
        Except.error StoreError.unauthorized) ∧
    ((agentId ∈ task.security.allowedAgents ∨ "*" ∈ task.security.allowedAgents) →
      continueTaskAuth task agentId userId now acceptFlag ≠
        Except.error StoreError.unauthorized) := by
  have hiff : isAuthorized task agentId = true ↔
      (agentId ∈ task.security.allowedAgents ∨ "*" ∈ task.security.allowedAgents) := by
    simp [isAuthorized, List.contains, or_comm]
  refine ⟨hiff, ?_, ?_⟩
  · intro hno
    have hf : isAuthorized task agentId = false := by
      cases hb : isAuthorized task agentId
      · rfl
      · exact absurd (hiff.mp hb) hno
    unfold continueTaskAuth
    unfold isAuthorized at hf
    rw [Bool.or_eq_false_iff] at hf
    rw [hf.1, hf.2]
    rfl
  · intro hyes
    have ht : isAuthorized task agentId = true := hiff.mpr hyes
    unfold continueTaskAuth
    unfold isAuthorized at ht
    rcases Bool.or_eq_true_iff.mp ht with h1 | h1 <;> rw [h1] <;> simp <;>
      split <;>
      first
        | simp
        | · unfold acceptHandoff
            cases task.handoffs.getLast? <;> simp

/-- Witness for C7: the identity `eve` is rejected on the task whose
allow-list names only `alice`. -/
theorem continueTask_authorization_witness :
    ¬ ("eve" ∈ cTaskRestricted.security.allowedAgents ∨
        "*" ∈ cTaskRestricted.security.allowedAgents) ∧
    continueTaskAuth cTaskRestricted "eve" "user-9" cNow2 true =
      Except.error StoreError.unauthorized :=
  ⟨by decide,
   (continueTask_authorization cTaskRestricted "eve" "user-9" cNow2 true).2.1 (by decide)⟩

/-- C2 (code bug): `updateProgress` performs no schema validation, so an
out-of-range `percentComplete` of 150 is merged and the resulting
document — which `TaskStateSchema.parse` rejects, as `validTaskState`
shows — is persisted anyway. -/
theorem updateProgress_persists_invalid :
    (updateProgress cTask0 { percentComplete := some 150 } cNow2).progress.percentComplete
      = 150 ∧
    validTaskState (updateProgress cTask0 { percentComplete := some 150 } cNow2) = false ∧
    validTaskState cTask0 = true := by decide

/-- C9 (amended): `listTasks` returns the `tasks` list of the index
document — whose records, as written by `addToIndex`, carry `id`, `title`
and `createdAt` but no `status` field — and the empty list when the index
document does not exist. -/
theorem listTasks_spec (index : Option TaskIndex) (taskId title now : String) :
    listTasks none = [] ∧
    listTasks (some (addToIndex index taskId title now)) =
      (index.getD { tasks := [] }).tasks ++ [indexEntry taskId title now] ∧
    (indexEntry taskId title now).lookup "id" = some taskId ∧
    (indexEntry taskId title now).lookup "title" = some title ∧
    (indexEntry taskId title now).lookup "createdAt" = some now ∧
    (indexEntry taskId title now).lookup "status" = none :=
  ⟨rfl, rfl, rfl, rfl, rfl, rfl⟩

/-- Counterexample for C9 as stated: the record `addToIndex` writes for a
concrete task has no `status` field for `listTasks` to return, only `id`,
`title` and `createdAt`. -/
theorem listTasks_status_cex :
    listTasks (some (addToIndex none "task-1" "Demo task" cNow)) =
      [indexEntry "task-1" "Demo task" cNow] ∧
    (indexEntry "task-1" "Demo task" cNow).lookup "status" = none ∧
    (indexEntry "task-1" "Demo task" cNow).lookup "createdAt" = some cNow := by decide

/-- A successful `updateTask` call always yields the patched document with
`version` raised by one. -/
lemma updateTask_ok_version (task : TaskState) (patch : TaskPatch) (now : String)
    (t' : TaskState) (h : updateTask task patch now = Except.ok t') :
    t'.version = task.version + 1 := by
  replace h :
      (if validTaskState (applyTaskPatch task patch now) = true then
        Except.ok (applyTaskPatch task patch now)
      else Except.error StoreError.validation) = Except.ok t' := h
  split at h
  · injection h with h
    subst h
    rfl
  · exact Except.noConfusion h

/-- C1 (amended): `updateTask` — and `completeTask`, which delegates to it
— increments `version` by exactly 1 on success; every other repository
mutator (`updateSessionId`, `addFileModification`,
`addConversationMessage`, `updateProgress`, `updateNextSteps`,
`initiateHandoff`, `acceptHandoff`) persists the document with `version`
unchanged. -/
theorem version_increment_policy (task : TaskState) (patch : TaskPatch)
    (sid : String) (mod : FileModification) (msg : ConversationMessage)
    (pp : ProgressPatch) (np : NextStepsPatch) (hi : HandoffInit)
    (aid uid now : String) :
    (∀ t', updateTask task patch now = Except.ok t' → t'.version = task.version + 1) ∧
    (∀ t', completeTask task now = Except.ok t' → t'.version = task.version + 1) ∧
    (updateSessionId task sid).version = task.version ∧
    (addFileModification task mod now).version = task.version ∧
    (addConversationMessage task msg now).version = task.version ∧
    (updateProgress task pp now).version = task.version ∧
    (updateNextSteps task np now).version = task.version ∧
    (initiateHandoff task hi now).version = task.version ∧
    (∀ t', acceptHandoff task aid uid now = Except.ok t' → t'.version = task.version) := by
  refine ⟨fun t' h => updateTask_ok_version task patch now t' h,
          fun t' h => updateTask_ok_version task completionPatch now t' h,
          ?_, rfl, ?_, rfl, rfl, rfl, ?_⟩
  · unfold updateSessionId
    dsimp only
    split <;> rfl
  · unfold addConversationMessage
    dsimp only
    split <;> rfl
  · intro t' h
    revert h
    unfold acceptHandoff
    cases task.handoffs.getLast? with
    | none => intro h; exact Except.noConfusion h
    | some last =>
        intro h
        injection h with h
        subst h
        rfl

/-- Witness for C1 (amended) at the freshly created task: `updateTask` and
`completeTask` raise version from 1 to 2, `updateProgress` leaves it at 1. -/
theorem version_increment_policy_witness :
    (applyTaskPatch cTask0 {} cNow2).version = cTask0.version + 1 ∧
    (applyTaskPatch cTask0 completionPatch cNow2).version = cTask0.version + 1 ∧
    (updateProgress cTask0 {} cNow2).version = cTask0.version ∧
    (∃ t', acceptHandoff cTask0 "agent-2" "user-2" cNow2 = Except.ok t' ∧
      t'.version = cTask0.version) := by
  have h := version_increment_policy cTask0 {} "sess-1" cMod cMsg {} {} cHI
    "agent-2" "user-2" cNow2
  exact ⟨h.1 _ rfl, h.2.1 _ rfl, h.2.2.2.2.2.1, ⟨_, rfl, h.2.2.2.2.2.2.2.2 _ rfl⟩⟩

/-- Counterexample for C1 as stated: `updateProgress` with an in-range
value succeeds — it persists a schema-valid document — yet leaves
`version` at 1 instead of incrementing it to 2. -/
theorem updateProgress_version_cex :
    (updateProgress cTask0 { percentComplete := some 40 } cNow2).progress.percentComplete
      = 40 ∧
    validTaskState (updateProgress cTask0 { percentComplete := some 40 } cNow2) = true ∧
    (updateProgress cTask0 { percentComplete := some 40 } cNow2).version ≠
      cTask0.version + 1 := by decide

/-- C8 (amended): `addFileModification`, `addConversationMessage`,
`updateProgress` and `updateNextSteps` each refresh `updatedAt` to the
mutation timestamp before persisting; `updateSessionId` persists the
document with `updatedAt` untouched. -/
theorem updatedAt_refresh_policy (task : TaskState) (sid now : String)
    (mod : FileModification) (msg : ConversationMessage)
    (pp : ProgressPatch) (np : NextStepsPatch) :
    (addFileModification task mod now).updatedAt = now ∧
    (addConversationMessage task msg now).updatedAt = now ∧
    (updateProgress task pp now).updatedAt = now ∧
    (updateNextSteps task np now).updatedAt = now ∧
    (updateSessionId task sid).updatedAt = task.updatedAt := by
  refine ⟨rfl, rfl, rfl, rfl, ?_⟩
  unfold updateSessionId
  dsimp only
  split <;> rfl

/-- Counterexample for C8 as stated: `updateSessionId` persists a changed
document whose `updatedAt` still carries the creation timestamp. -/
theorem updateSessionId_updatedAt_cex :
    updateSessionId cTask0 "sess-1" ≠ cTask0 ∧
    (updateSessionId cTask0 "sess-1").session.currentSessionId = "sess-1" ∧
    (updateSessionId cTask0 "sess-1").updatedAt = cTask0.updatedAt := by decide

/-- Patching a valid document with a valid status keeps it schema-valid. -/
lemma validTaskState_statusPatch (task : TaskState) (s now : String)
    (hs : statusValues.contains s = true) (h : validTaskState task = true) :
    validTaskState (applyTaskPatch task { status := some s } now) = true := by
  simp only [validTaskState, Bool.and_eq_true] at h
  obtain ⟨⟨⟨⟨h1, h2⟩, h3⟩, h4⟩, h5⟩ := h
  simp only [validTaskState, Bool.and_eq_true]
  exact ⟨⟨⟨⟨decide_eq_true (Nat.le_add_left 1 task.version), hs⟩, h3⟩, h4⟩, h5⟩

/-- Setting the session id keeps a valid document schema-valid: the fields
the schema constrains are unchanged, except `status`, which becomes the
valid value `in_progress`. -/
lemma validTaskState_updateSessionId (task : TaskState) (sid : String)
    (h : validTaskState task = true) :
    validTaskState (updateSessionId task sid) = true := by
  simp only [validTaskState, Bool.and_eq_true] at h
  obtain ⟨⟨⟨⟨h1, h2⟩, h3⟩, h4⟩, h5⟩ := h
  unfold updateSessionId
  dsimp only
  split <;>
    · simp only [validTaskState, Bool.and_eq_true]
      exact ⟨⟨⟨⟨h1, by decide⟩, h3⟩, h4⟩, h5⟩

/-- C6 (amended): when the agent-turn invocation fails on a schema-valid
task, `execute` persists status `failed` and returns the failure result
with the error message captured, and `resume` returns the same failure
result while leaving the persisted document exactly as it was; neither
re-raises the turn error (`execute` returns `Except.ok`, `resume` is
total). -/
theorem executor_turn_error (task : TaskState) (sid e now : String)
    (h : validTaskState task = true) :
    (∃ t', execute task sid (Except.error e) now =
        Except.ok (t',
          { sessionId := sid, status := "failed"
            progress := task.progress.percentComplete
            result := none, error := some e }) ∧
      t'.status = "failed") ∧
    resume task sid (Except.error e) now =
      (task,
        { sessionId := sid, status := "failed"
          progress := task.progress.percentComplete
          result := none, error := some e }) := by
  have hv : validTaskState (applyTaskPatch (updateSessionId task sid) failedPatch now)
      = true :=
    validTaskState_statusPatch (updateSessionId task sid) "failed" now (by decide)
      (validTaskState_updateSessionId task sid h)
  have hup : updateTask (updateSessionId task sid) failedPatch now =
      Except.ok (applyTaskPatch (updateSessionId task sid) failedPatch now) := by
    unfold updateTask
    simp [hv]
  refine ⟨⟨applyTaskPatch (updateSessionId task sid) failedPatch now, ?_, rfl⟩, rfl⟩
  unfold execute
  dsimp only
  rw [hup]

/-- Witness for C6 (amended): a failing turn on the freshly created task. -/
theorem executor_turn_error_witness :
    validTaskState cTask0 = true ∧
    resume cTask0 "sess-9" (Except.error "boom") cNow2 =
      (cTask0,
        { sessionId := "sess-9", status := "failed", progress := 0
          result := none, error := some "boom" }) :=
  ⟨by decide, (executor_turn_error cTask0 "sess-9" "boom" cNow2 (by decide)).2⟩

/-- Counterexample for C6 as stated: on a turn error, `resume` returns a
result marked `failed` with the error captured, yet the persisted task
document is unchanged — its status stays `in_progress`, never `failed`. -/
theorem resume_unfailed_state_cex :
    (resume cTaskIP "sess-9" (Except.error "boom") cNow2).1 = cTaskIP ∧
    cTaskIP.status = "in_progress" ∧
    (resume cTaskIP "sess-9" (Except.error "boom") cNow2).2.status = "failed" ∧
    (resume cTaskIP "sess-9" (Except.error "boom") cNow2).2.error = some "boom" := by
  decide

/-- C4: appending a message to a 50-message history leaves exactly the 20
most recent messages verbatim, folds the older 31 into `compactedSummary`
as one `summaryLine` per message behind the `"\n\n---\n"` delimiter, and
never shrinks `compactedSummary`. -/
theorem addConversationMessage_compaction (task : TaskState)
    (m : ConversationMessage) (now : String)
    (h : task.context.conversationHistory.length = 50) :
    (addConversationMessage task m now).context.conversationHistory =
      (task.context.conversationHistory ++ [m]).drop 31 ∧
    (addConversationMessage task m now).context.conversationHistory.length = 20 ∧
    (addConversationMessage task m now).context.compactedSummary =
      some ((task.context.compactedSummary.getD "") ++ "\n\n---\n" ++
        String.intercalate "\n"
          (((task.context.conversationHistory ++ [m]).take 31).map summaryLine)) ∧
    (task.context.compactedSummary.getD "").length ≤
      ((addConversationMessage task m now).context.compactedSummary.getD "").length := by
  have hlen : (task.context.conversationHistory ++ [m]).length = 51 := by
    simp [h]
  have hgt : (task.context.conversationHistory ++ [m]).length > 50 := by
    omega
  unfold addConversationMessage compactHistory
  dsimp only
  rw [if_pos hgt, hlen]
  refine ⟨rfl, ?_, rfl, ?_⟩
  · simp [List.length_drop, hlen]
  · simp [String.length_append]
    omega

/-- Witness for C4: a concrete task holding 50 copies of a message. -/
theorem addConversationMessage_compaction_witness :
    cTask50.context.conversationHistory.length = 50 ∧
    (addConversationMessage cTask50 cMsg cNow2).context.conversationHistory.length = 20 ∧
    (addConversationMessage cTask50 cMsg cNow2).context.conversationHistory =
      (cTask50.context.conversationHistory ++ [cMsg]).drop 31 := by
  have h := addConversationMessage_compaction cTask50 cMsg cNow2 (by decide)
  exact ⟨by decide, h.2.1, h.1⟩

end TaskHandoff
